import Mathlib

/-!
Verification of the gameplay core of `bevy_pong` (`src/main.rs`,
`src/screen/splash.rs`).

The embedding models the ECS world pieces the verified systems touch:
the `Score` resource (two `u32` counters, modelled as `Nat` with explicit
`% 2^32` on increment), the scoreboard `Text`, the set of entities matched
by the `Query<(&Ball, &mut Transform)>` used by the boundary collision
observers, and the entities spawned by the `Screen::Gameplay` enter hooks.
`f32` quantities (positions, velocities, frame delta, the random sample)
are modelled as rationals; the arithmetic the systems perform on them
(multiplication by constants, negation, addition, comparison against
constants) is exact in this range so no rounding model is needed.
-/

namespace BevyPong

/-- Modulus of Rust's `u32`, used for the wrapping `+= 1` on score fields. -/
def U32_MOD : Nat := 2 ^ 32

/-- The `Score` resource from `main.rs`: `player1` and `player2` are `u32`. -/
structure Score where
  player1 : Nat
  player2 : Nat
deriving Repr, DecidableEq

/-- `Score::new()` returns `Score { player1: 0, player2: 0 }`. -/
def Score.new : Score := ⟨0, 0⟩

/-- One entity matched by the observers' `Query<(&Ball, &mut Transform)>`:
an entity id, its `Transform::translation` (a `Vec3`), and its
`LinearVelocity` (only spawned on balls by `add_ball`; the observers never
touch it). -/
structure BallEnt where
  id : Nat
  translation : ℚ × ℚ × ℚ
  velocity : ℚ × ℚ
deriving Repr, DecidableEq

/-- The slice of the ECS world that the verified systems read or write:
the `Score` resource, the `ScoreBoard` entity's `Text` (if spawned), the
x-positions of spawned paddles, the entities with `Ball` and `Transform`
components, the names of spawned boundary walls, and a fresh-id counter
for spawning. -/
structure World where
  score : Score
  scoreboardText : Option String
  playerXs : List ℚ
  balls : List BallEnt
  boundaries : List String
  nextId : Nat
deriving Repr, DecidableEq

/-- The string `format!("{} - {}", score.player1, score.player2)` used by
both `add_score` and `update_score`. -/
def formatScore (s : Score) : String :=
  Nat.repr s.player1 ++ " - " ++ Nat.repr s.player2

/-- `add_score`: spawns the `ScoreBoard` entity with
`Text(format!("{} - {}", p1, p2))` read from the current `Score` resource.
It only reads the resource (`Res<Score>`). -/
def add_score (w : World) : World :=
  { w with scoreboardText := some (formatScore w.score) }

/-- `add_players`: spawns the two paddles at x = -400 and x = 400. It does
not access the `Score` resource. -/
def add_players (w : World) : World :=
  { w with playerXs := w.playerXs ++ [-400, 400] }

/-- The direction selection in `add_ball`: given the random sample
`n = random()` in `[0,1)`, pick one of four diagonal vectors by comparing
against 0.25, 0.5, 0.75. -/
def direction (n : ℚ) : ℚ × ℚ :=
  if n < 1/4 then (-200, -150)
  else if n < 1/2 then (-200, 150)
  else if n < 3/4 then (200, -150)
  else (200, 150)

/-- `add_ball`: spawns one entity with the `Ball` component,
`LinearVelocity(direction)` and a default `Transform` (translation 0).
It does not access the `Score` resource. -/
def add_ball (n : ℚ) (w : World) : World :=
  { w with balls := w.balls ++ [⟨w.nextId, (0, 0, 0), direction n⟩],
           nextId := w.nextId + 1 }

/-- `add_boundaries`: spawns the four static walls (only the two side
walls get collision observers). It does not access the `Score` resource;
the observers it registers run only when a collision event is later
delivered. -/
def add_boundaries (w : World) : World :=
  { w with boundaries :=
      w.boundaries ++
        ["BoundaryYStart", "BoundaryYEnd", "BoundaryXStart", "BoundaryXEnd"] }

/-- Running the four `Screen::Gameplay` enter hooks in registration order
(`add_score`, `add_players`, `add_ball`, `add_boundaries`); `n` is the
random sample consumed by `add_ball`. -/
def enterGameplay (n : ℚ) (w : World) : World :=
  add_boundaries (add_ball n (add_players (add_score w)))

/-- `query.contains(trigger.collider)`: does the colliding entity appear in
the `Query<(&Ball, &mut Transform)>`, i.e. does it carry the `Ball` role? -/
def ballQueryContains (balls : List BallEnt) (c : Nat) : Bool :=
  balls.any (fun b => b.id == c)

/-- The observer registered on `BoundaryXStart` (the left wall), fired on
`OnCollisionStart` with collider `c`: if the collider is in the ball query,
increment `score.player2` (wrapping `u32` add), then `r!(query.single_mut())`
— which bails out unless the query matches exactly one entity — and set that
entity's translation to `Vec3::splat(0.)`. -/
def onCollisionStartXStart (w : World) (c : Nat) : World :=
  if ballQueryContains w.balls c then
    let w1 := { w with score :=
      { w.score with player2 := (w.score.player2 + 1) % U32_MOD } }
    match w1.balls with
    | [b] => { w1 with balls := [{ b with translation := (0, 0, 0) }] }
    | _ => w1
  else w

/-- The observer registered on `BoundaryXEnd` (the right wall): same as the
left wall's observer but incrementing `score.player1`. -/
def onCollisionStartXEnd (w : World) (c : Nat) : World :=
  if ballQueryContains w.balls c then
    let w1 := { w with score :=
      { w.score with player1 := (w.score.player1 + 1) % U32_MOD } }
    match w1.balls with
    | [b] => { w1 with balls := [{ b with translation := (0, 0, 0) }] }
    | _ => w1
  else w

/-- Which side boundary a collision-start event was delivered to. -/
inductive Side
  | xstart
  | xend
deriving Repr, DecidableEq

/-- Deliver one collision-start event `(side, collider)` to the matching
observer. -/
def stepEvent (w : World) (e : Side × Nat) : World :=
  match e.1 with
  | .xstart => onCollisionStartXStart w e.2
  | .xend => onCollisionStartXEnd w e.2

/-- Deliver a sequence of collision-start events in order. -/
def runEvents (w : World) (events : List (Side × Nat)) : World :=
  events.foldl stepEvent w

/-- Number of events in the sequence delivered to boundary `s` whose
collider is in the ball query (relative to ball set `balls`). -/
def countQualifying (s : Side) (balls : List BallEnt)
    (events : List (Side × Nat)) : Nat :=
  (events.filter (fun e => decide (e.1 = s) && ballQueryContains balls e.2)).length

/-- `update_score`: `Single<&mut Text, With<ScoreBoard>>` skips the system
when the scoreboard is absent; otherwise the `Text` is unconditionally
overwritten with the current score rendering. -/
def update_score (w : World) : World :=
  match w.scoreboardText with
  | none => w
  | some _ => { w with scoreboardText := some (formatScore w.score) }

/-- The key states read by `move_players`: `KeyW`/`KeyS` steer player one,
`ArrowUp`/`ArrowDown` steer player two. -/
structure Keys where
  keyW : Bool
  keyS : Bool
  arrowUp : Bool
  arrowDown : Bool
deriving Repr, DecidableEq

/-- `move_players`, modelling its Bevy system parameters explicitly:
`p1` and `p2` are the results of the `Single<Entity, With<Player1>>` /
`Single<Entity, With<Player2>>` parameters (`none` means the query did not
match exactly one entity, in which case Bevy skips the whole system), and
`vel` is the `Query<&mut LinearVelocity, With<Player>>` restricted to the
y component (`none` = entity not in the query, so `r!(...get_mut(id))`
bails out of the system). `delta` is `time.delta_secs()`. The result is
the updated velocity query. -/
def move_players (keys : Keys) (delta : ℚ) (p1 p2 : Option Nat)
    (vel : Nat → Option ℚ) : Nat → Option ℚ :=
  match p1, p2 with
  | some e1, some e2 =>
    let speed := delta * 25000
    let p1_speed := (if keys.keyW then speed else 0) +
      (if keys.keyS then -speed else 0)
    match vel e1 with
    | none => vel
    | some _ =>
      let vel1 := fun e => if e = e1 then some p1_speed else vel e
      let p2_speed := (if keys.arrowUp then speed else 0) +
        (if keys.arrowDown then -speed else 0)
      match vel1 e2 with
      | none => vel1
      | some _ => fun e => if e = e2 then some p2_speed else vel1 e
  | _, _ => vel

/-- The `(done, total)` pair returned by
`progress.get_global_combined_progress()` in `update_splash` (`u32` fields;
no arithmetic is performed on them, so no wrap modelling is needed). -/
structure Progress where
  done : Nat
  total : Nat
deriving Repr, DecidableEq

/-- One frame of `update_splash`: `lastDone` is the `Local<u32>` state
(zero-initialized). Returns the updated local together with whether this
frame spawned `fade_out(Screen::Title)`. The early return fires when
`*last_done == done`; otherwise the local is updated and the fade is
spawned exactly when `done == total`. -/
def update_splash (lastDone : Nat) (p : Progress) : Nat × Bool :=
  if lastDone = p.done then (lastDone, false)
  else (p.done, p.done == p.total)

/-- Run `update_splash` over consecutive frames that observe the given
`done` values (with a fixed `total`), threading the `Local<u32>` state, and
record for each frame whether the fade to Title was spawned. -/
def splashRun (total lastDone : Nat) : List Nat → List Bool
  | [] => []
  | d :: ds =>
    (update_splash lastDone ⟨d, total⟩).2
      :: splashRun total (update_splash lastDone ⟨d, total⟩).1 ds

/-! Helper lemmas about the collision observers -/

lemma ballQueryContains_eq_any_map (balls : List BallEnt) (c : Nat) :
    ballQueryContains balls c = (balls.map BallEnt.id).any (fun i => i == c) := by
  induction balls with
  | nil => rfl
  | cons b bs ih =>
    simp [ballQueryContains, List.any_map, Function.comp] at ih ⊢
    rw [ih]

lemma decide_side_eq_self (s : Side) : decide (s = s) = true := by
  cases s <;> decide

lemma decide_xstart_xend : decide (Side.xstart = Side.xend) = false := by decide

lemma decide_xend_xstart : decide (Side.xend = Side.xstart) = false := by decide

lemma onCollisionStartXStart_balls_id (w : World) (c : Nat) :
    (onCollisionStartXStart w c).balls.map BallEnt.id
      = w.balls.map BallEnt.id := by
  obtain ⟨sc, tx, px, balls, bd, ni⟩ := w
  by_cases h : ballQueryContains balls c = true <;>
    rcases balls with _ | ⟨b1, _ | ⟨b2, rest⟩⟩ <;>
      simp [onCollisionStartXStart, h]

lemma onCollisionStartXEnd_balls_id (w : World) (c : Nat) :
    (onCollisionStartXEnd w c).balls.map BallEnt.id
      = w.balls.map BallEnt.id := by
  obtain ⟨sc, tx, px, balls, bd, ni⟩ := w
  by_cases h : ballQueryContains balls c = true <;>
    rcases balls with _ | ⟨b1, _ | ⟨b2, rest⟩⟩ <;>
      simp [onCollisionStartXEnd, h]

lemma onCollisionStartXStart_score (w : World) (c : Nat) :
    (onCollisionStartXStart w c).score =
      if ballQueryContains w.balls c
      then { w.score with player2 := (w.score.player2 + 1) % U32_MOD }
      else w.score := by
  obtain ⟨sc, tx, px, balls, bd, ni⟩ := w
  by_cases h : ballQueryContains balls c = true <;>
    rcases balls with _ | ⟨b1, _ | ⟨b2, rest⟩⟩ <;>
      simp [onCollisionStartXStart, h]

lemma onCollisionStartXEnd_score (w : World) (c : Nat) :
    (onCollisionStartXEnd w c).score =
      if ballQueryContains w.balls c
      then { w.score with player1 := (w.score.player1 + 1) % U32_MOD }
      else w.score := by
  obtain ⟨sc, tx, px, balls, bd, ni⟩ := w
  by_cases h : ballQueryContains balls c = true <;>
    rcases balls with _ | ⟨b1, _ | ⟨b2, rest⟩⟩ <;>
      simp [onCollisionStartXEnd, h]

lemma contains_stepEvent (w : World) (e : Side × Nat) (c : Nat) :
    ballQueryContains (stepEvent w e).balls c = ballQueryContains w.balls c := by
  rw [ballQueryContains_eq_any_map, ballQueryContains_eq_any_map w.balls c]
  obtain ⟨s, c0⟩ := e
  cases s <;>
    simp [stepEvent, onCollisionStartXStart_balls_id, onCollisionStartXEnd_balls_id]

lemma stepEvent_player2 (w : World) (e : Side × Nat) :
    (stepEvent w e).score.player2 =
      if decide (e.1 = Side.xstart) && ballQueryContains w.balls e.2
      then (w.score.player2 + 1) % U32_MOD else w.score.player2 := by
  obtain ⟨s, c⟩ := e
  cases s <;>
    simp [stepEvent, onCollisionStartXStart_score, onCollisionStartXEnd_score,
      apply_ite Score.player2]

lemma stepEvent_player1 (w : World) (e : Side × Nat) :
    (stepEvent w e).score.player1 =
      if decide (e.1 = Side.xend) && ballQueryContains w.balls e.2
      then (w.score.player1 + 1) % U32_MOD else w.score.player1 := by
  obtain ⟨s, c⟩ := e
  cases s <;>
    simp [stepEvent, onCollisionStartXStart_score, onCollisionStartXEnd_score,
      apply_ite Score.player1]

lemma countQualifying_cons_hit (s : Side) (balls : List BallEnt)
    (c : Nat) (es : List (Side × Nat)) (hb : ballQueryContains balls c = true) :
    countQualifying s balls ((s, c) :: es) = 1 + countQualifying s balls es := by
  simp [countQualifying, List.filter_cons, hb, Nat.add_comm]

lemma countQualifying_cons_miss (s : Side) (balls : List BallEnt)
    (c : Nat) (es : List (Side × Nat)) (hb : ballQueryContains balls c = false) :
    countQualifying s balls ((s, c) :: es) = countQualifying s balls es := by
  simp [countQualifying, List.filter_cons, hb]

lemma countQualifying_cons_other (s t : Side) (h : s ≠ t) (balls : List BallEnt)
    (c : Nat) (es : List (Side × Nat)) :
    countQualifying t balls ((s, c) :: es) = countQualifying t balls es := by
  simp [countQualifying, List.filter_cons, h]

lemma countQualifying_congr (s : Side) (balls balls2 : List BallEnt)
    (h : ∀ c, ballQueryContains balls c = ballQueryContains balls2 c)
    (es : List (Side × Nat)) :
    countQualifying s balls es = countQualifying s balls2 es := by
  unfold countQualifying
  congr 1
  exact List.filter_congr (fun e _ => by rw [h e.2])

lemma runEvents_scores (events : List (Side × Nat)) : ∀ w : World,
    w.score.player2 + countQualifying Side.xstart w.balls events < U32_MOD →
    w.score.player1 + countQualifying Side.xend w.balls events < U32_MOD →
    (runEvents w events).score.player2
        = w.score.player2 + countQualifying Side.xstart w.balls events ∧
    (runEvents w events).score.player1
        = w.score.player1 + countQualifying Side.xend w.balls events := by
  induction events with
  | nil =>
    intro w _ _
    simp [runEvents, countQualifying]
  | cons e es ih =>
    intro w h2 h1
    obtain ⟨s, c⟩ := e
    have hrun : runEvents w ((s, c) :: es) = runEvents (stepEvent w (s, c)) es := rfl
    have hc2 : countQualifying Side.xstart (stepEvent w (s, c)).balls es
        = countQualifying Side.xstart w.balls es :=
      countQualifying_congr _ _ _ (fun c2 => contains_stepEvent w (s, c) c2) es
    have hc1 : countQualifying Side.xend (stepEvent w (s, c)).balls es
        = countQualifying Side.xend w.balls es :=
      countQualifying_congr _ _ _ (fun c2 => contains_stepEvent w (s, c) c2) es
    have hp2 := stepEvent_player2 w (s, c)
    have hp1 := stepEvent_player1 w (s, c)
    rw [hrun]
    cases s
    case xstart =>
      rw [countQualifying_cons_other Side.xstart Side.xend (by decide)] at h1 ⊢
      cases hb : ballQueryContains w.balls c
      case false =>
        rw [countQualifying_cons_miss Side.xstart w.balls c es hb] at h2 ⊢
        have hq2 : (stepEvent w (Side.xstart, c)).score.player2
            = w.score.player2 := by rw [hp2]; simp [hb]
        have hq1 : (stepEvent w (Side.xstart, c)).score.player1
            = w.score.player1 := by rw [hp1]; simp [hb]
        obtain ⟨g2, g1⟩ := ih (stepEvent w (Side.xstart, c)) (by omega) (by omega)
        exact ⟨by omega, by omega⟩
      case true =>
        rw [countQualifying_cons_hit Side.xstart w.balls c es hb] at h2 ⊢
        have hq2 : (stepEvent w (Side.xstart, c)).score.player2
            = (w.score.player2 + 1) % U32_MOD := by rw [hp2]; simp [hb]
        have hq1 : (stepEvent w (Side.xstart, c)).score.player1
            = w.score.player1 := by rw [hp1]; simp [decide_xstart_xend]
        have hm : (w.score.player2 + 1) % U32_MOD = w.score.player2 + 1 :=
          Nat.mod_eq_of_lt (by omega)
        obtain ⟨g2, g1⟩ := ih (stepEvent w (Side.xstart, c)) (by omega) (by omega)
        exact ⟨by omega, by omega⟩
    case xend =>
      rw [countQualifying_cons_other Side.xend Side.xstart (by decide)] at h2 ⊢
      cases hb : ballQueryContains w.balls c
      case false =>
        rw [countQualifying_cons_miss Side.xend w.balls c es hb] at h1 ⊢
        have hq2 : (stepEvent w (Side.xend, c)).score.player2
            = w.score.player2 := by rw [hp2]; simp [hb]
        have hq1 : (stepEvent w (Side.xend, c)).score.player1
            = w.score.player1 := by rw [hp1]; simp [hb]
        obtain ⟨g2, g1⟩ := ih (stepEvent w (Side.xend, c)) (by omega) (by omega)
        exact ⟨by omega, by omega⟩
      case true =>
        rw [countQualifying_cons_hit Side.xend w.balls c es hb] at h1 ⊢
        have hq2 : (stepEvent w (Side.xend, c)).score.player2
            = w.score.player2 := by rw [hp2]; simp [decide_xend_xstart]
        have hq1 : (stepEvent w (Side.xend, c)).score.player1
            = (w.score.player1 + 1) % U32_MOD := by rw [hp1]; simp [hb]
        have hm : (w.score.player1 + 1) % U32_MOD = w.score.player1 + 1 :=
          Nat.mod_eq_of_lt (by omega)
        obtain ⟨g2, g1⟩ := ih (stepEvent w (Side.xend, c)) (by omega) (by omega)
        exact ⟨by omega, by omega⟩

/-! Theorems -/

/-- C1: Every collision-start event on the left (`BoundaryXStart`) boundary
whose collider carries the Ball role increments player-two's score by exactly
1 and leaves player-one's unchanged; symmetrically the right (`BoundaryXEnd`)
boundary credits player-one; and over any sequence of events each score ends
at its initial value plus the number of qualifying events on its boundary
(`+ events.length + 1` headroom rules out `u32` wraparound). -/
theorem scoring_per_boundary_event (w : World) (events : List (Side × Nat))
    (h1 : w.score.player1 + events.length + 1 < U32_MOD)
    (h2 : w.score.player2 + events.length + 1 < U32_MOD) :
    ((runEvents w events).score.player1
        = w.score.player1 + countQualifying Side.xend w.balls events) ∧
    ((runEvents w events).score.player2
        = w.score.player2 + countQualifying Side.xstart w.balls events) ∧
    (∀ c, ballQueryContains w.balls c = true →
      (onCollisionStartXStart w c).score.player2 = w.score.player2 + 1 ∧
      (onCollisionStartXStart w c).score.player1 = w.score.player1 ∧
      (onCollisionStartXEnd w c).score.player1 = w.score.player1 + 1 ∧
      (onCollisionStartXEnd w c).score.player2 = w.score.player2) := by
  have hle2 : countQualifying Side.xstart w.balls events ≤ events.length :=
    List.length_filter_le _ _
  have hle1 : countQualifying Side.xend w.balls events ≤ events.length :=
    List.length_filter_le _ _
  obtain ⟨g2, g1⟩ := runEvents_scores events w (by omega) (by omega)
  refine ⟨g1, g2, ?_⟩
  intro c hc
  have s2 := onCollisionStartXStart_score w c
  have s1 := onCollisionStartXEnd_score w c
  rw [if_pos hc] at s2 s1
  have hm2 : (w.score.player2 + 1) % U32_MOD = w.score.player2 + 1 :=
    Nat.mod_eq_of_lt (by omega)
  have hm1 : (w.score.player1 + 1) % U32_MOD = w.score.player1 + 1 :=
    Nat.mod_eq_of_lt (by omega)
  exact ⟨by rw [s2]; exact hm2, by rw [s2], by rw [s1]; exact hm1, by rw [s1]⟩

/-- C1 witness: four events against one ball (id 7): two qualifying on the
left wall, one qualifying on the right wall, one non-qualifying (collider 9);
final score (1, 2). -/
theorem scoring_per_boundary_event_witness :
    (0 + 4 + 1 < U32_MOD ∧ 0 + 4 + 1 < U32_MOD) ∧
    (((runEvents ⟨⟨0, 0⟩, none, [], [⟨7, (3, 4, 0), (200, 150)⟩], [], 8⟩
          [(Side.xstart, 7), (Side.xstart, 7), (Side.xend, 7), (Side.xstart, 9)]).score.player1
        = 0 + countQualifying Side.xend
            (⟨⟨0, 0⟩, none, [], [⟨7, (3, 4, 0), (200, 150)⟩], [], 8⟩ : World).balls
            [(Side.xstart, 7), (Side.xstart, 7), (Side.xend, 7), (Side.xstart, 9)]) ∧
      ((runEvents ⟨⟨0, 0⟩, none, [], [⟨7, (3, 4, 0), (200, 150)⟩], [], 8⟩
          [(Side.xstart, 7), (Side.xstart, 7), (Side.xend, 7), (Side.xstart, 9)]).score.player2
        = 0 + countQualifying Side.xstart
            (⟨⟨0, 0⟩, none, [], [⟨7, (3, 4, 0), (200, 150)⟩], [], 8⟩ : World).balls
            [(Side.xstart, 7), (Side.xstart, 7), (Side.xend, 7), (Side.xstart, 9)]) ∧
      (∀ c, ballQueryContains
          (⟨⟨0, 0⟩, none, [], [⟨7, (3, 4, 0), (200, 150)⟩], [], 8⟩ : World).balls c
            = true →
        (onCollisionStartXStart
            ⟨⟨0, 0⟩, none, [], [⟨7, (3, 4, 0), (200, 150)⟩], [], 8⟩ c).score.player2
          = 0 + 1 ∧
        (onCollisionStartXStart
            ⟨⟨0, 0⟩, none, [], [⟨7, (3, 4, 0), (200, 150)⟩], [], 8⟩ c).score.player1
          = 0 ∧
        (onCollisionStartXEnd
            ⟨⟨0, 0⟩, none, [], [⟨7, (3, 4, 0), (200, 150)⟩], [], 8⟩ c).score.player1
          = 0 + 1 ∧
        (onCollisionStartXEnd
            ⟨⟨0, 0⟩, none, [], [⟨7, (3, 4, 0), (200, 150)⟩], [], 8⟩ c).score.player2
          = 0)) :=
  ⟨⟨by decide, by decide⟩,
    scoring_per_boundary_event
      ⟨⟨0, 0⟩, none, [], [⟨7, (3, 4, 0), (200, 150)⟩], [], 8⟩
      [(Side.xstart, 7), (Side.xstart, 7), (Side.xend, 7), (Side.xstart, 9)]
      (by decide) (by decide)⟩

/-- C4: After a collision-start event on either side boundary whose collider
carries the Ball role, with exactly one Ball entity present, the ball's
translation is `(0,0,0)` regardless of its previous value. -/
theorem goal_resets_ball_to_center (w : World) (c : Nat) (b : BallEnt)
    (hb : w.balls = [b]) (hc : ballQueryContains w.balls c = true) :
    (onCollisionStartXStart w c).balls.map BallEnt.translation = [(0, 0, 0)] ∧
    (onCollisionStartXEnd w c).balls.map BallEnt.translation = [(0, 0, 0)] := by
  rw [hb] at hc
  constructor <;> simp [onCollisionStartXStart, onCollisionStartXEnd, hb, hc]

/-- C4 witness: concrete goal event with one ball away from the center. -/
theorem goal_resets_ball_to_center_witness :
    (⟨⟨0, 0⟩, none, [], [⟨7, (3, 4, 0), (200, 150)⟩], [], 8⟩ : World).balls
        = ([⟨7, (3, 4, 0), (200, 150)⟩] : List BallEnt) ∧
    ballQueryContains
        (⟨⟨0, 0⟩, none, [], [⟨7, (3, 4, 0), (200, 150)⟩], [], 8⟩ : World).balls 7
        = true ∧
    ((onCollisionStartXStart ⟨⟨0, 0⟩, none, [], [⟨7, (3, 4, 0), (200, 150)⟩], [], 8⟩
        7).balls.map BallEnt.translation = [(0, 0, 0)] ∧
      (onCollisionStartXEnd ⟨⟨0, 0⟩, none, [], [⟨7, (3, 4, 0), (200, 150)⟩], [], 8⟩
        7).balls.map BallEnt.translation = [(0, 0, 0)]) :=
  ⟨by decide, by decide,
    goal_resets_ball_to_center
      ⟨⟨0, 0⟩, none, [], [⟨7, (3, 4, 0), (200, 150)⟩], [], 8⟩ 7
      ⟨7, (3, 4, 0), (200, 150)⟩ (by decide) (by decide)⟩

/-- C5: A collision-start event on either side boundary whose collider does
not carry the Ball role has no side effect at all: the world (scores and all
entities) is unchanged. -/
theorem non_ball_collision_no_effect (w : World) (c : Nat)
    (hc : ballQueryContains w.balls c = false) :
    onCollisionStartXStart w c = w ∧ onCollisionStartXEnd w c = w := by
  constructor <;> simp [onCollisionStartXStart, onCollisionStartXEnd, hc]

/-- C5 witness: a collider (id 9) that is not in the ball query. -/
theorem non_ball_collision_no_effect_witness :
    ballQueryContains
        (⟨⟨0, 0⟩, none, [], [⟨7, (3, 4, 0), (200, 150)⟩], [], 8⟩ : World).balls 9
        = false ∧
    (onCollisionStartXStart ⟨⟨0, 0⟩, none, [], [⟨7, (3, 4, 0), (200, 150)⟩], [], 8⟩ 9
        = ⟨⟨0, 0⟩, none, [], [⟨7, (3, 4, 0), (200, 150)⟩], [], 8⟩ ∧
      onCollisionStartXEnd ⟨⟨0, 0⟩, none, [], [⟨7, (3, 4, 0), (200, 150)⟩], [], 8⟩ 9
        = ⟨⟨0, 0⟩, none, [], [⟨7, (3, 4, 0), (200, 150)⟩], [], 8⟩) :=
  ⟨by decide, non_ball_collision_no_effect _ 9 (by decide)⟩

/-- C10: The goal response is not atomic: when the collider carries the Ball
role but two or more Ball entities exist, the responder still increments the
corresponding score (the increment precedes the unique-ball lookup, whose
failure aborts the rest), and no ball's transform is modified. -/
theorem score_incremented_even_without_unique_ball (w : World) (c : Nat)
    (hlen : 2 ≤ w.balls.length) (hc : ballQueryContains w.balls c = true) :
    ((onCollisionStartXStart w c).score.player2
        = (w.score.player2 + 1) % U32_MOD ∧
      (onCollisionStartXStart w c).score.player1 = w.score.player1 ∧
      (onCollisionStartXStart w c).balls = w.balls) ∧
    ((onCollisionStartXEnd w c).score.player1
        = (w.score.player1 + 1) % U32_MOD ∧
      (onCollisionStartXEnd w c).score.player2 = w.score.player2 ∧
      (onCollisionStartXEnd w c).balls = w.balls) := by
  obtain ⟨sc, tx, px, balls, bd, ni⟩ := w
  match balls, hlen with
  | b1 :: b2 :: rest, _ =>
    simp [onCollisionStartXStart, onCollisionStartXEnd] at hc ⊢
    simp [hc]

/-- C10 witness: two balls present; the score still advances and neither
ball moves. -/
theorem score_incremented_even_without_unique_ball_witness :
    2 ≤ (⟨⟨0, 0⟩, none, [],
        [⟨7, (3, 4, 0), (200, 150)⟩, ⟨9, (1, 1, 0), (200, 150)⟩], [], 10⟩ :
        World).balls.length ∧
    ballQueryContains
        (⟨⟨0, 0⟩, none, [],
          [⟨7, (3, 4, 0), (200, 150)⟩, ⟨9, (1, 1, 0), (200, 150)⟩], [], 10⟩ :
          World).balls 7 = true ∧
    (((onCollisionStartXStart
          ⟨⟨0, 0⟩, none, [],
            [⟨7, (3, 4, 0), (200, 150)⟩, ⟨9, (1, 1, 0), (200, 150)⟩], [], 10⟩
          7).score.player2 = (0 + 1) % U32_MOD ∧
        (onCollisionStartXStart
          ⟨⟨0, 0⟩, none, [],
            [⟨7, (3, 4, 0), (200, 150)⟩, ⟨9, (1, 1, 0), (200, 150)⟩], [], 10⟩
          7).score.player1 = 0 ∧
        (onCollisionStartXStart
          ⟨⟨0, 0⟩, none, [],
            [⟨7, (3, 4, 0), (200, 150)⟩, ⟨9, (1, 1, 0), (200, 150)⟩], [], 10⟩
          7).balls
          = [⟨7, (3, 4, 0), (200, 150)⟩, ⟨9, (1, 1, 0), (200, 150)⟩]) ∧
      ((onCollisionStartXEnd
          ⟨⟨0, 0⟩, none, [],
            [⟨7, (3, 4, 0), (200, 150)⟩, ⟨9, (1, 1, 0), (200, 150)⟩], [], 10⟩
          7).score.player1 = (0 + 1) % U32_MOD ∧
        (onCollisionStartXEnd
          ⟨⟨0, 0⟩, none, [],
            [⟨7, (3, 4, 0), (200, 150)⟩, ⟨9, (1, 1, 0), (200, 150)⟩], [], 10⟩
          7).score.player2 = 0 ∧
        (onCollisionStartXEnd
          ⟨⟨0, 0⟩, none, [],
            [⟨7, (3, 4, 0), (200, 150)⟩, ⟨9, (1, 1, 0), (200, 150)⟩], [], 10⟩
          7).balls
          = [⟨7, (3, 4, 0), (200, 150)⟩, ⟨9, (1, 1, 0), (200, 150)⟩])) :=
  ⟨by decide, by decide,
    score_incremented_even_without_unique_ball _ 7 (by decide) (by decide)⟩

/-- C7: For a random sample `n` in `[0,1)`, the spawned ball's initial
linear velocity is one of the four diagonal vectors, each selected exactly
on its quarter-length subinterval of `[0,1)`; and `add_ball` gives the
spawned ball exactly that velocity. -/
theorem ball_direction_uniform_quarters (n : ℚ) (h0 : 0 ≤ n) (h1 : n < 1) :
    (direction n = (-200, -150) ↔ 0 ≤ n ∧ n < 1/4) ∧
    (direction n = (-200, 150) ↔ 1/4 ≤ n ∧ n < 1/2) ∧
    (direction n = (200, -150) ↔ 1/2 ≤ n ∧ n < 3/4) ∧
    (direction n = (200, 150) ↔ 3/4 ≤ n ∧ n < 1) ∧
    ∀ w : World, (add_ball n w).balls.map BallEnt.velocity
      = w.balls.map BallEnt.velocity ++ [direction n] := by
  refine ⟨?_, ?_, ?_, ?_, ?_⟩ <;>
    first
      | (intro w; simp [add_ball])
      | (unfold direction
         split_ifs with ha hb hc <;>
           first
             | exact iff_of_true (by decide) (by constructor <;> linarith)
             | exact iff_of_false (by decide) (by rintro ⟨h2, h3⟩; linarith))

/-- C7 witness: sample `n = 3/10` falls in the second quarter and selects
`(-200, 150)`. -/
theorem ball_direction_uniform_quarters_witness :
    (0 : ℚ) ≤ 3/10 ∧ (3/10 : ℚ) < 1 ∧
    ((direction (3/10) = (-200, -150) ↔ 0 ≤ (3/10 : ℚ) ∧ (3/10 : ℚ) < 1/4) ∧
      (direction (3/10) = (-200, 150) ↔ 1/4 ≤ (3/10 : ℚ) ∧ (3/10 : ℚ) < 1/2) ∧
      (direction (3/10) = (200, -150) ↔ 1/2 ≤ (3/10 : ℚ) ∧ (3/10 : ℚ) < 3/4) ∧
      (direction (3/10) = (200, 150) ↔ 3/4 ≤ (3/10 : ℚ) ∧ (3/10 : ℚ) < 1) ∧
      ∀ w : World, (add_ball (3/10) w).balls.map BallEnt.velocity
        = w.balls.map BallEnt.velocity ++ [direction (3/10)]) :=
  ⟨by norm_num, by norm_num,
    ball_direction_uniform_quarters (3/10) (by norm_num) (by norm_num)⟩

/-- C8: The `Score` resource starts at `(0,0)` (inserted once at app build
by `plugin` via `Score::new()`), and running the four `Screen::Gameplay`
enter hooks leaves both score fields unchanged, so scores persist across
leaving and re-entering Gameplay. -/
theorem score_persists_across_gameplay_entry :
    Score.new = ⟨0, 0⟩ ∧
    ∀ (w : World) (n : ℚ), (enterGameplay n w).score = w.score := by
  refine ⟨rfl, ?_⟩
  intro w n
  simp [enterGameplay, add_boundaries, add_ball, add_players, add_score]

/-- C9: The scoreboard text always renders `"<p1> - <p2>"`: `add_score`
initializes the `Text` to the decimal rendering of the current scores, and
`update_score` unconditionally overwrites the `Text` (when the scoreboard
entity exists — the frames in which the system runs) with the rendering of
the current scores, whether or not they changed. -/
theorem score_readout_format :
    (∀ s : Score, formatScore s = Nat.repr s.player1 ++ " - " ++ Nat.repr s.player2) ∧
    (∀ w : World, (add_score w).scoreboardText = some (formatScore w.score)) ∧
    (∀ w : World, (update_score w).scoreboardText
      = w.scoreboardText.map (fun _ => formatScore w.score)) ∧
    formatScore ⟨3, 5⟩ = "3 - 5" := by
  refine ⟨fun s => rfl, fun w => rfl, ?_, by decide⟩
  intro w
  obtain ⟨sc, tx, px, balls, bd, ni⟩ := w
  cases tx <;> simp [update_score]

/-- C2 counterexample: with player one's `Single` query unsatisfied
(`p1 = none`), player two at entity 2 holding "up" with `delta = 1`, player
two's velocity is NOT updated to `+speed = 25000` — it keeps its old value 5.
This refutes the claim that the other player's velocity update still takes
place: Bevy skips the whole system when any `Single` parameter fails. -/
theorem move_players_other_update_counterexample :
    move_players ⟨false, false, true, false⟩ 1 none (some 2)
        (fun e => if e = 2 then some 5 else none) 2 = some 5 ∧
    (5 : ℚ) ≠ 1 * 25000 := by
  constructor
  · rfl
  · norm_num

/-- C2 (amended): for every frame in which one of the two player entities
cannot be located, `move_players` is skipped for the frame entirely — no
velocity (of either player) is modified, and no panic occurs. -/
theorem move_players_skipped_when_player_missing (keys : Keys) (delta : ℚ)
    (p1 p2 : Option Nat) (vel : Nat → Option ℚ)
    (h : p1 = none ∨ p2 = none) :
    move_players keys delta p1 p2 vel = vel := by
  rcases h with h | h <;> subst h
  · cases p2 <;> rfl
  · cases p1 <;> rfl

/-- C2 witness: player one missing; the velocity store is untouched. -/
theorem move_players_skipped_when_player_missing_witness :
    ((none : Option Nat) = none ∨ (some 2 : Option Nat) = none) ∧
    move_players ⟨false, false, true, false⟩ 1 none (some 2)
        (fun e => if e = 2 then some (5 : ℚ) else none)
      = (fun e => if e = 2 then some (5 : ℚ) else none) :=
  ⟨Or.inl rfl,
    move_players_skipped_when_player_missing ⟨false, false, true, false⟩ 1
      none (some 2) (fun e => if e = 2 then some (5 : ℚ) else none)
      (Or.inl rfl)⟩

/-- C6: whenever both players are located, each player's vertical velocity is
set (independently of its previous value) to `+speed` with only "up" held,
`-speed` with only "down" held, and `0` with both or neither held, where
`speed = delta * 25000`, for any positive frame delta. -/
theorem move_players_sets_velocity (keys : Keys) (delta : ℚ) (e1 e2 : Nat)
    (vel : Nat → Option ℚ) (v1 v2 : ℚ) (hne : e1 ≠ e2)
    (hv1 : vel e1 = some v1) (hv2 : vel e2 = some v2) (_hd : 0 < delta) :
    move_players keys delta (some e1) (some e2) vel e1
      = some (if keys.keyW && !keys.keyS then delta * 25000
          else if keys.keyS && !keys.keyW then -(delta * 25000) else 0) ∧
    move_players keys delta (some e1) (some e2) vel e2
      = some (if keys.arrowUp && !keys.arrowDown then delta * 25000
          else if keys.arrowDown && !keys.arrowUp then -(delta * 25000) else 0) := by
  obtain ⟨kw, ks, ku, kd⟩ := keys
  cases kw <;> cases ks <;> cases ku <;> cases kd <;>
    simp [move_players, hv1, hv2, hne, Ne.symm hne]

/-- C6 witness: players at entities 1 and 2 with old velocities 5 and 7;
player one holds "up" (KeyW), player two holds "down" (ArrowDown). -/
theorem move_players_sets_velocity_witness :
    ((1 : Nat) ≠ 2 ∧
      (fun e => if e = 1 then some (5 : ℚ) else
        if e = 2 then some 7 else none) 1 = some 5 ∧
      (fun e => if e = 1 then some (5 : ℚ) else
        if e = 2 then some 7 else none) 2 = some 7 ∧
      (0 : ℚ) < 1) ∧
    (move_players ⟨true, false, false, true⟩ 1 (some 1) (some 2)
        (fun e => if e = 1 then some (5 : ℚ) else
          if e = 2 then some 7 else none) 1
      = some (if true && !false then (1 : ℚ) * 25000
          else if false && !true then -((1 : ℚ) * 25000) else 0) ∧
      move_players ⟨true, false, false, true⟩ 1 (some 1) (some 2)
        (fun e => if e = 1 then some (5 : ℚ) else
          if e = 2 then some 7 else none) 2
      = some (if false && !true then (1 : ℚ) * 25000
          else if true && !false then -((1 : ℚ) * 25000) else 0)) :=
  ⟨⟨by decide, rfl, rfl, by norm_num⟩,
    move_players_sets_velocity ⟨true, false, false, true⟩ 1 1 2
      (fun e => if e = 1 then some (5 : ℚ) else if e = 2 then some 7 else none)
      5 7 (by decide) rfl rfl (by norm_num)⟩

/-! Helper lemmas for `update_splash` -/

lemma update_splash_fst (lastDone d total : Nat) :
    (update_splash lastDone ⟨d, total⟩).1 = d := by
  unfold update_splash
  split <;> simp_all

lemma splashRun_cons (total lastDone d : Nat) (ds : List Nat) :
    splashRun total lastDone (d :: ds)
      = (update_splash lastDone ⟨d, total⟩).2 :: splashRun total d ds := by
  simp only [splashRun, update_splash_fst]

lemma splashRun_after_complete (ds : List Nat) : ∀ (total lastDone : Nat),
    (∀ d ∈ ds, d ≤ total) → List.Chain' (· ≤ ·) (lastDone :: ds) →
    lastDone = total →
    ∀ i : Nat, (splashRun total lastDone ds)[i]? ≠ some true := by
  induction ds with
  | nil =>
    intro total lastDone _ _ _ i
    simp [splashRun]
  | cons d ds ih =>
    intro total lastDone hle hch hlast i
    have hld : lastDone ≤ d := (List.chain'_cons.mp hch).1
    have hch' : List.Chain' (· ≤ ·) (d :: ds) := (List.chain'_cons.mp hch).2
    have hdt : d ≤ total := hle d (by simp)
    have hde : lastDone = d := by omega
    rw [splashRun_cons]
    cases i
    case zero =>
      simp [update_splash, hde]
    case succ k =>
      have hA := ih total d (fun x hx => hle x (by simp [hx])) hch' (by omega) k
      simpa using hA

lemma splashRun_first_complete (ds : List Nat) : ∀ (total lastDone : Nat),
    (∀ d ∈ ds, d ≤ total) → List.Chain' (· ≤ ·) (lastDone :: ds) →
    lastDone < total →
    ∀ i : Nat, (splashRun total lastDone ds)[i]? = some true ↔
      (ds[i]? = some total ∧ ∀ j < i, ds[j]? ≠ some total) := by
  induction ds with
  | nil =>
    intro total lastDone _ _ _ i
    simp [splashRun]
  | cons d ds ih =>
    intro total lastDone hle hch hlast i
    have hld : lastDone ≤ d := (List.chain'_cons.mp hch).1
    have hch' : List.Chain' (· ≤ ·) (d :: ds) := (List.chain'_cons.mp hch).2
    have hdt : d ≤ total := hle d (by simp)
    have hle' : ∀ x ∈ ds, x ≤ total := fun x hx => hle x (by simp [hx])
    rw [splashRun_cons]
    cases i
    case zero =>
      by_cases hde : lastDone = d
      · simp only [update_splash, if_pos hde, List.getElem?_cons_zero]
        constructor
        · intro hf
          exact absurd (Option.some.inj hf) (by simp)
        · rintro ⟨hc, _⟩
          exact absurd (Option.some.inj hc) (by omega)
      · simp only [update_splash, if_neg hde, List.getElem?_cons_zero]
        constructor
        · intro hf
          have : (d == total) = true := Option.some.inj hf
          exact ⟨by simp_all, by omega⟩
        · rintro ⟨hc, _⟩
          have : d = total := Option.some.inj hc
          simp [this]
    case succ k =>
      simp only [List.getElem?_cons_succ]
      by_cases hdt' : d = total
      · have hA := splashRun_after_complete ds total d hle' hch' hdt' k
        constructor
        · intro hf
          exact absurd hf hA
        · rintro ⟨h1, h2⟩
          exact absurd (by simp [hdt'] : (d :: ds)[0]? = some total)
            (h2 0 (Nat.succ_pos k))
      · have hI := ih total d hle' hch' (by omega) k
        rw [hI]
        constructor
        · rintro ⟨h1, h2⟩
          refine ⟨h1, ?_⟩
          intro j hj
          match j, hj with
          | 0, _ => simp; omega
          | j + 1, hj =>
            simp only [List.getElem?_cons_succ]
            exact h2 j (by omega)
        · rintro ⟨h1, h2⟩
          refine ⟨h1, ?_⟩
          intro j hj
          have := h2 (j + 1) (by omega)
          simpa using this

/-- C3: With a fixed positive `total`, frame-wise non-decreasing `done`
values never exceeding `total`, and the `Local<u32>` starting at 0,
`update_splash` spawns the fade to Title exactly on the first frame whose
`done` equals `total`, and on no other frame — even though `done == total`
persists on all later frames. -/
theorem splash_fade_fires_once (total : Nat) (dones : List Nat)
    (ht : 0 < total) (hle : ∀ d ∈ dones, d ≤ total)
    (hmono : List.Chain' (· ≤ ·) dones) :
    ∀ i : Nat, (splashRun total 0 dones)[i]? = some true ↔
      (dones[i]? = some total ∧ ∀ j < i, dones[j]? ≠ some total) := by
  have hch : List.Chain' (· ≤ ·) (0 :: dones) := by
    cases dones with
    | nil => simp
    | cons d ds => exact List.chain'_cons.mpr ⟨Nat.zero_le d, hmono⟩
  exact splashRun_first_complete dones total 0 hle hch ht

/-- C3 witness: one contributor with 3 items reporting done = 1, 2, 3, 3:
the fade fires exactly on the third frame. -/
theorem splash_fade_fires_once_witness :
    (0 < 3 ∧ (∀ d ∈ [1, 2, 3, 3], d ≤ 3) ∧
      List.Chain' (· ≤ ·) [1, 2, 3, 3]) ∧
    (∀ i : Nat, (splashRun 3 0 [1, 2, 3, 3])[i]? = some true ↔
      (([1, 2, 3, 3] : List Nat)[i]? = some 3 ∧
        ∀ j < i, ([1, 2, 3, 3] : List Nat)[j]? ≠ some 3)) :=
  ⟨⟨by decide, by decide,
      by norm_num [List.chain'_cons, List.chain'_singleton]⟩,
    splash_fade_fires_once 3 [1, 2, 3, 3] (by decide) (by decide)
      (by norm_num [List.chain'_cons, List.chain'_singleton])⟩

end BevyPong
